import Mathlib

/-!
Shallow embedding of the `simplemdmapi` client library (validators, decorator
pipeline, URL builder, request executor, paginator, token loading), together
with theorems settling the frozen claims about its specification.

Python dictionaries are modelled as association lists with unique keys in
insertion order; Python exceptions are modelled with `Except` over an explicit
error type; truthiness is modelled explicitly.
-/

namespace SimpleMDM

/-- A Python value, as far as the embedded code needs to distinguish them. -/
inductive PyVal where
  | vnone  : PyVal
  | vbool  : Bool → PyVal
  | vint   : Int → PyVal
  | vstr   : String → PyVal
  | vlist  : List PyVal → PyVal
  | vdict  : List (String × PyVal) → PyVal

/-- Python dict with string keys: association list in insertion order. -/
abbrev PyDict := List (String × PyVal)

/-- Python exceptions raised by the embedded code. -/
inductive PyError where
  | typeError       : String → PyError
  | valueError      : String → PyError
  | attributeError  : String → PyError
  | fileNotFound    : String → PyError
  | packageNotSigned : String → PyError
  | apiException    : String → PyError
  | httpError       : Nat → PyError
  deriving DecidableEq, Repr

/-- Python truthiness for the embedded values. -/
def pyTruthy : PyVal → Bool
  | .vnone => false
  | .vbool b => b
  | .vint n => n != 0
  | .vstr s => !s.isEmpty
  | .vlist l => !l.isEmpty
  | .vdict l => !l.isEmpty

/-- `d.get(k)` — `None` (here `Option.none`) when the key is absent. -/
def dictGet (d : PyDict) (k : String) : Option PyVal :=
  d.lookup k

/-- Truthiness of `d.get(k)`: an absent key is falsy. -/
def pyTruthyOpt : Option PyVal → Bool
  | none => false
  | some v => pyTruthy v

/-- `d[k] = v`: update in place when present, append when absent. -/
def dictSet (d : PyDict) (k : String) (v : PyVal) : PyDict :=
  if (d.lookup k).isSome then
    d.map (fun kv => if kv.1 = k then (k, v) else kv)
  else
    d ++ [(k, v)]

/-- `d.setdefault(k, v)`: append only when the key is absent. -/
def dictSetdefault (d : PyDict) (k : String) (v : PyVal) : PyDict :=
  if (d.lookup k).isSome then d else d ++ [(k, v)]

/-- `del d[k]`. -/
def dictDel (d : PyDict) (k : String) : PyDict :=
  d.filter (fun kv => kv.1 ≠ k)

/-- A single-quote character for reproducing Python message formatting. -/
def squote : String := "\x27"

/-! ### validators.py -/

/-- `validate_required`: the Python loop raises a `TypeError` at the first
required parameter missing from `kwargs`. -/
def validate_required (kwargs : PyDict) (req_params : List String)
    (fn_name : String) : Except PyError Unit :=
  match req_params.find? (fun r => (dictGet kwargs r).isNone) with
  | some r =>
      .error (.typeError
        (fn_name ++ "() missing required keyword-only parameter: " ++
          squote ++ r ++ squote))
  | none => .ok ()

/-- `validate_any`: raises unless at least one of `any_params` is a key of
`kwargs`. -/
def validate_any (kwargs : PyDict) (any_params : List String)
    (fn_name : String) : Except PyError Unit :=
  if any_params.any (fun p => (dictGet kwargs p).isSome) then
    .ok ()
  else
    .error (.typeError
      (fn_name ++ "() missing at least one optional keyword-only parameter"))

/-- `_generate_bad_combinations`: for each group `p`, all combinations of
`p` of size `len(p) - 1` (the Python `range(_min, _max)` is the single value
`len(p) - 1`).  `List.sublistsLen` produces the same combinations as
`itertools.combinations` (order-preserving sublists of the given length). -/
def _generate_bad_combinations (params : List (List String)) : List (List String) :=
  (params.map (fun p => List.sublistsLen (p.length - 1) p)).flatten

/-- The Python test `kwarg == p` where `kwarg` is a `str` and `p` is a `list`:
`==` between values of different types is `False` in Python. -/
def py_str_eq_list (_ : String) (_ : List String) : Bool := false

/-- The Python test `kwarg in inc_params` where `kwarg` is a `str` key and
`inc_params` is the tuple of incompatibility groups (a tuple of lists): each
comparison is `str == list`. -/
def py_str_in_groups (kwarg : String) (inc_params : List (List String)) : Bool :=
  inc_params.any (fun p => py_str_eq_list kwarg p)

/-- `validate_incompatible`: the triple loop over `kwargs` keys, bad combos and
their members; raises when `bad_kwarg in kwargs and kwarg in inc_params and
not bad_kwarg == kwarg`. -/
def validate_incompatible (kwargs : PyDict) (inc_params : List (List String))
    (fn_name : String) : Except PyError Unit :=
  let bad_combos := _generate_bad_combinations inc_params
  let hit := (kwargs.map Prod.fst).findSome? (fun kwarg =>
    bad_combos.findSome? (fun combo =>
      (combo.find? (fun bad_kwarg =>
        (dictGet kwargs bad_kwarg).isSome &&
        py_str_in_groups kwarg inc_params &&
        bad_kwarg != kwarg)).map (fun bad_kwarg => (bad_kwarg, kwarg))))
  match hit with
  | some bk =>
      .error (.attributeError
        (fn_name ++ "() " ++ squote ++ bk.1 ++ squote ++
          " not permitted with " ++ squote ++ bk.2 ++ squote))
  | none => .ok ()

/-- Python `==` as used by `validate_param_opts`: the values declared in the
method tables are strings and booleans, so only atoms compare equal; any
comparison between values of different types is `False`. -/
def pyEqAtom : PyVal → PyVal → Bool
  | .vnone, .vnone => true
  | .vbool a, .vbool b => a == b
  | .vint a, .vint b => a == b
  | .vstr a, .vstr b => a == b
  | _, _ => false

/-- `validate_param_opts`: for each `(param, values)` with
`value = kwargs.get(param)`, raises when `value` is truthy and not in
`values`. -/
def validate_param_opts (kwargs : PyDict)
    (val_params : List (String × List PyVal)) (fn_name : String) :
    Except PyError Unit :=
  match val_params.find? (fun pv =>
      match dictGet kwargs pv.1 with
      | some v => pyTruthy v && !(pv.2.any (pyEqAtom v))
      | none => false) with
  | some pv =>
      .error (.valueError
        (fn_name ++ "() unexpected value for " ++ squote ++ pv.1 ++ squote))
  | none => .ok ()

/-- `validate_pin`: the inner wrapper `wrapper_b` around a decorated API
method.  It reads `kwargs.get("params", {}).get(param)`; when that value is
truthy it checks the exact length and then that every character is a digit,
raising `ValueError` otherwise.  Note that `wrapper_b` ends without calling
the decorated function `fn`: a successful validation simply returns `None`. -/
def validate_pin_checks (param : String) (length : Nat) (fn_name : String)
    (kwargs : PyDict) : Except PyError Unit :=
  let paramsDict : PyDict :=
    match dictGet kwargs "params" with
    | some (.vdict d) => d
    | _ => []
  match dictGet paramsDict param with
  | some (.vstr s) =>
      if !(pyTruthy (.vstr s)) then .ok ()
      else if s.length ≠ length then
        .error (.valueError
          (fn_name ++ "() option for " ++ squote ++ param ++ squote ++
            " does not meet length requirement of " ++ toString length))
      else if !(s.data.all Char.isDigit) then
        .error (.valueError
          (fn_name ++ "() option for " ++ squote ++ param ++ squote ++
            " contains non-numeric characters"))
      else .ok ()
  | _ => .ok ()

/-- The local filesystem and the external `pkgutil --check-signature` tool, as
oracles consulted by `validate_package` / `pkg_is_signed`. -/
structure FileSystem where
  pathIsFile : String → Bool
  pkgSigned : String → Bool

/-- `pathlib.Path(p).suffix`: the extension (with leading dot) of the final
path component; a leading dot alone (hidden file) is not a suffix. -/
def pathSuffix (p : String) : String :=
  let name := (p.splitOn "/").getLastD ""
  let parts := name.splitOn "."
  match parts with
  | [] => ""
  | [_] => ""
  | first :: restParts =>
      let ext := restParts.getLastD ""
      if first.isEmpty && restParts.length == 1 then "" else "." ++ ext

/-- `validate_package`: missing file raises `FileNotFoundError`; an unsigned
package raises `PackageNotSigned`. -/
def validate_package (fs : FileSystem) (pkg : String) (fn_name : String) :
    Except PyError Unit :=
  if !(fs.pathIsFile pkg) then
    .error (.fileNotFound pkg)
  else if !(fs.pkgSigned pkg) then
    .error (.packageNotSigned
      (fn_name ++ "() " ++ squote ++ pkg ++ squote ++
        " is not signed, only signed packages can be uploaded."))
  else .ok ()

/-! ### decorators.py — `method_params` -/

/-- One entry of a resource class's `_method_kwargs` table.  A missing key in
the Python dict (`conf.get(...)` returning `None`) is modelled by the empty
list / `none`, which is equally falsy. -/
structure MethodConf where
  req_params : List String := []
  any_params : List String := []
  inc_params : List (List String) := []
  val_params : List (String × List PyVal) := []
  file_param : Option String := none

/-- The string carried by a `vstr`, used for `Path(file)` on a caller-supplied
file path value. -/
def pyStr : PyVal → String
  | .vstr s => s
  | _ => ""

/-- The body of `method_params.wrap_actions` up to (but excluding) the final
`fn(self, *args, **kwargs)` call: runs the configured validators in source
order, then performs the `files` switcharoo; returns the kwargs that `fn`
would receive. -/
def method_params_run (fs : FileSystem) (conf : MethodConf) (fn_name : String)
    (kwargs : PyDict) : Except PyError PyDict := do
  let fileVal : Option PyVal :=
    match conf.file_param with
    | some fp => dictGet kwargs fp
    | none => none
  let fileTruthy := pyTruthyOpt fileVal
  if !conf.req_params.isEmpty then
    validate_required kwargs conf.req_params fn_name
  if !conf.any_params.isEmpty then
    validate_any kwargs conf.any_params fn_name
  if !conf.inc_params.isEmpty then
    validate_incompatible kwargs conf.inc_params fn_name
  if !conf.val_params.isEmpty then
    validate_param_opts kwargs conf.val_params fn_name
  if fileTruthy && conf.file_param == some "binary" then
    let file := pyStr (fileVal.getD .vnone)
    if pathSuffix file == ".pkg" then
      validate_package fs file fn_name
  if !(pyTruthyOpt (dictGet kwargs "files")) && fileTruthy then
    match conf.file_param, fileVal with
    | some fp, some fv =>
        let kwargs := dictSet kwargs "files" (.vdict [(fp, fv)])
        let kwargs := dictSet kwargs "file_upload" (.vstr fp)
        pure (dictDel kwargs fp)
    | _, _ => pure kwargs
  else
    pure kwargs

/-- A resource method call as seen by the transport: the `method_params`
validations run first; only when they pass does the wrapped method body run,
issuing exactly one request through the session (counted). -/
def operation_call (fs : FileSystem) (conf : MethodConf) (fn_name : String)
    (kwargs : PyDict) : Except PyError PyDict × Nat :=
  match method_params_run fs conf fn_name kwargs with
  | .error e => (.error e, 0)
  | .ok kw => (.ok kw, 1)

/-- `Devices._method_kwargs["lock"]`: only `all_params` is declared, so
`method_params` performs no validation for `lock`. -/
def lockConf : MethodConf := {}

/-- `Devices.lock`: `method_params`, then `validate_pin("pin", 6)`, whose
inner wrapper validates and then returns `None` without ever calling the
decorated function — so the `url_suffixes`-wrapped POST is never reached and
no transport request is issued, whatever the pin value.  The `Nat` component
counts transport requests. -/
def lock_call (kwargs : PyDict) : Except PyError Unit × Nat :=
  match method_params_run ⟨fun _ => false, fun _ => false⟩ lockConf "lock" kwargs with
  | .error e => (.error e, 0)
  | .ok kw =>
      match validate_pin_checks "pin" 6 "lock" kw with
      | .error e => (.error e, 0)
      | .ok _ => (.ok (), 0)

/-! ### utils.py — URL builder -/

/-- `re.sub` with the pattern `fslash_reg` actually compiled by the source.
The pattern text is the f-string `rf"{sep}{2,}"`; the second brace pair is an
f-string replacement field whose expression `2,` is the tuple `(2,)`, so with
`sep = "/"` the compiled pattern is the literal text `/(2,)`, matching exactly
the three characters `/2,` (with `2,` as a capture group).  Each match is
replaced by `/`. -/
def fslashSubAux : List Char → List Char
  | [] => []
  | '/' :: '2' :: ',' :: rest => '/' :: fslashSubAux rest
  | c :: rest => c :: fslashSubAux rest

/-- Scanner state for the `scheme_reg` substitution: how much of a potential
`:///...` run the scanner has just passed (`0` = none, `1` = `:`, `2` = `:/`,
`3` = `://`, `4` = inside a run of three or more slashes after `:`). -/
inductive SchemeState where
  | s0 | s1 | s2 | s3 | s4

/-- `re.sub` with `scheme_reg = r":/{3,}"` and replacement `"://"`: scanning
left to right, each `:` followed by a maximal run of three or more `/` is
replaced by `://`.  Equivalently (and structurally): emit every character,
except that a `/` which extends a run of already three slashes directly after
a `:` is dropped. -/
def schemeSubFrom : SchemeState → List Char → List Char
  | _, [] => []
  | st, c :: rest =>
      match st, c with
      | .s0, ':' => ':' :: schemeSubFrom .s1 rest
      | .s0, _   => c :: schemeSubFrom .s0 rest
      | .s1, ':' => ':' :: schemeSubFrom .s1 rest
      | .s1, '/' => '/' :: schemeSubFrom .s2 rest
      | .s1, _   => c :: schemeSubFrom .s0 rest
      | .s2, ':' => ':' :: schemeSubFrom .s1 rest
      | .s2, '/' => '/' :: schemeSubFrom .s3 rest
      | .s2, _   => c :: schemeSubFrom .s0 rest
      | .s3, ':' => ':' :: schemeSubFrom .s1 rest
      | .s3, '/' => schemeSubFrom .s4 rest
      | .s3, _   => c :: schemeSubFrom .s0 rest
      | .s4, ':' => ':' :: schemeSubFrom .s1 rest
      | .s4, '/' => schemeSubFrom .s4 rest
      | .s4, _   => c :: schemeSubFrom .s0 rest

/-- The `scheme_reg` substitution over a whole string. -/
def schemeSubAux (l : List Char) : List Char :=
  schemeSubFrom .s0 l

/-- `urljoin(*paths, base)` with the default separator `/`: falsy (empty)
path segments are dropped, the rest are joined with `/`, the `fslash_reg`
substitution is applied to the joined paths, then `base` (plus a `/` unless it
already ends in one) is prepended and the `scheme_reg` substitution applied. -/
def urljoin (paths : List String) (base : String) : String :=
  let joined := String.intercalate "/" (paths.filter (fun p => !p.isEmpty))
  let paths2 := String.mk (fslashSubAux joined.data)
  let pre := if base.data.getLast? = some '/' then "" else "/"
  String.mk (schemeSubAux (base ++ pre ++ paths2).data)

/-! ### utils.py — response checking -/

/-- The JSON body of a response as `api_error_check` consumes it:
either `r.json()` raises `JSONDecodeError`, or it yields a dict whose
`errors` key (when present) is an array of objects, each with an optional
`title` string. -/
inductive JsonBody where
  | undecodable : JsonBody
  | decoded : Option (List (Option String)) → JsonBody

/-- A `requests.Response` as far as the executor inspects it. -/
structure MockResponse where
  status_code : Nat
  body : JsonBody

/-- The `APIException` message: the truthy titles, each single-quoted, joined
with `", "`, plus the HTTP status code. -/
def api_error_msg (errs : List (Option String)) (status : Nat) : String :=
  let err_strings :=
    ((errs.filterMap id).filter (fun t => !t.isEmpty)).map
      (fun t => squote ++ t ++ squote)
  "SimpleMDM error/s: " ++ String.intercalate ", " err_strings ++
    ", HTTP " ++ toString status

/-- `api_error_check`: a `JSONDecodeError` is swallowed; when the decoded body
carries an `errors` key (even an empty array) an `APIException` is raised. -/
def api_error_check (r : MockResponse) : Except PyError Unit :=
  match r.body with
  | .undecodable => .ok ()
  | .decoded none => .ok ()
  | .decoded (some errs) => .error (.apiException (api_error_msg errs r.status_code))

/-- `Response.raise_for_status`: raises `HTTPError` for 4xx and 5xx. -/
def raise_for_status (r : MockResponse) : Except PyError Unit :=
  if 400 ≤ r.status_code ∧ r.status_code < 600 then
    .error (.httpError r.status_code)
  else .ok ()

/-! ### utils.py — kwargs consumption -/

/-- `SimpleMDMConnector.HTTP_IGNORE_STATUS_ERR` (environment defaults). -/
def HTTP_IGNORE_STATUS_ERR : List Nat := [200, 201, 202, 500]

/-- `SimpleMDMConnector.HTTP_RETRY_STATUS_LIST`. -/
def HTTP_RETRY_STATUS_LIST : List Nat := [429, 500, 502, 503, 504]

/-- The `_requests_kwargs` allow-list. -/
def _requests_kwargs : List String :=
  ["method", "url", "params", "data", "headers", "cookies", "files", "auth",
   "timeout", "allow_redirects", "proxies", "hooks", "stream", "verify",
   "cert", "json"]

/-- The `_function_kwargs` allow-list. -/
def _function_kwargs : List String :=
  ["ignore_statuses", "retry_statuses", "file_upload"]

/-- `consume_kwargs`: partition the call kwargs into request kwargs and
function kwargs; every remaining kwarg becomes a query parameter, and the
collected parameter dict is stored under `rqst_kwargs["params"]`. -/
def consume_kwargs (kwargs : PyDict) : PyDict × PyDict :=
  let rqst := kwargs.filter (fun kv => _requests_kwargs.contains kv.1)
  let func := kwargs.filter (fun kv => _function_kwargs.contains kv.1)
  let params := kwargs.filter (fun kv =>
    !_requests_kwargs.contains kv.1 && !_function_kwargs.contains kv.1)
  (dictSet rqst "params" (.vdict params), func)

/-- `consume_func_kwargs`: the effective ignore and retry status lists are the
caller's overrides (`kwargs.get(..., [])`, so `[]` when absent) followed by
the class defaults. -/
def consume_func_kwargs (ignore_statuses retry_statuses : List Nat) :
    List Nat × List Nat :=
  (ignore_statuses ++ HTTP_IGNORE_STATUS_ERR,
   retry_statuses ++ HTTP_RETRY_STATUS_LIST)

/-! ### decorators.py — `request` -/

/-- `HTTP_CONNECT_TIMEOUT` / `HTTP_READ_TIMEOUT` defaults. -/
def HTTP_CONNECT_TIMEOUT : Nat := 5
def HTTP_READ_TIMEOUT : Nat := 5

/-- The timeout `setdefault` (`request.wrap_actions`): skipped when a file
upload is designated (truthy `file_upload` function kwarg or truthy
`files` request kwarg). -/
def timeout_stage (rqst func : PyDict) : PyDict :=
  let fieldname := dictGet func "file_upload"
  if !(pyTruthyOpt fieldname) && !(pyTruthyOpt (dictGet rqst "files")) then
    dictSetdefault rqst "timeout"
      (.vlist [.vint HTTP_CONNECT_TIMEOUT, .vint HTTP_READ_TIMEOUT])
  else rqst

/-- The JSON `Content-Type` header override (`request.wrap_actions`): when
`rqst_kwargs.get("json")` is truthy the whole `headers` entry is replaced by
`{"Content-Type": "application/json"}`. -/
def json_header_stage (rqst : PyDict) : PyDict :=
  if pyTruthyOpt (dictGet rqst "json") then
    dictSet rqst "headers"
      (.vdict [("Content-Type", .vstr "application/json")])
  else rqst

/-- The request-kwargs processing performed by `request.wrap_actions` before
the transport call, in source order: `consume_kwargs`, the timeout
`setdefault`, then the JSON header override. -/
def prepare_request_kwargs (kwargs : PyDict) : PyDict :=
  json_header_stage
    (timeout_stage (consume_kwargs kwargs).1 (consume_kwargs kwargs).2)

/-- The outcome classification of `request.wrap_actions` (non-upload branch,
`dry_run = False`) once the transport has produced a response: a status in the
effective ignore list short-circuits both checks and the raw response is
returned unchanged; otherwise `api_error_check` runs first and
`raise_for_status` second. -/
def request_execute (ignore : List Nat) (r : MockResponse) :
    Except PyError MockResponse :=
  if ignore.contains r.status_code then .ok r
  else do
    api_error_check r
    raise_for_status r
    pure r

/-! ### decorators.py — `paginate` -/

/-- A record of a list endpoint's `data` array: a JSON object bearing an
`id`. -/
structure PageRecord where
  id : Nat
  deriving DecidableEq, Repr

/-- One page of a list endpoint's response body: the `data` array and the
`has_more` flag (`json_data.get("has_more", False)`, so absent means
`False`). -/
structure Page where
  pageData : List PageRecord
  has_more : Bool

/-- The `paginate.wrap_actions` loop (`dry_run = False`): `svc` is the mocked
service, mapping the `starting_after` cursor sent with a GET to the page it
returns.  Each iteration fetches a page; when its `data` is non-empty the
cursor is advanced to the last record's `id`, the loop flag becomes the page's
`has_more`, and the records are yielded; an empty `data` stops the loop.  The
result is the yielded records together with the list of `starting_after`
cursors sent, one per fetch.  The Python loop has no fuel; `fuel` bounds how
many iterations are observed, enough fuel being available for any terminating
run. -/
def paginate_loop (svc : Nat → Page) : Nat → Nat → List PageRecord × List Nat
  | 0, _ => ([], [])
  | fuel + 1, cursor =>
      let page := svc cursor
      match page.pageData.getLast? with
      | none => ([], [cursor])
      | some lastObj =>
          if page.has_more then
            let rest := paginate_loop svc fuel lastObj.id
            (page.pageData ++ rest.1, cursor :: rest.2)
          else
            (page.pageData, [cursor])

/-! ### __init__.py — token loading -/

/-- The token value handed to the connector: either a `str` from the
environment or a `pathlib.Path` (the default
`Path("/var/root/simplemdm_token")`). -/
inductive TokenVal where
  | pstr : String → TokenVal
  | ppath : String → TokenVal

/-- The raw text of the token value (what `Path(tkn)` is built from). -/
def TokenVal.raw : TokenVal → String
  | .pstr s => s
  | .ppath p => p

/-- Python `str.strip()` with no argument: remove leading and trailing
whitespace. -/
def pyStrip (s : String) : String :=
  String.mk
    (((s.data.dropWhile Char.isWhitespace).reverse.dropWhile
        Char.isWhitespace).reverse)

/-- The regular files present on the host, by path, with their contents. -/
abbrev TokenFS := List (String × String)

/-- `_token_is_file`: `Path(tkn).is_file() and Path(tkn).exists()`. -/
def token_is_file (fs : TokenFS) (tkn : TokenVal) : Bool :=
  (fs.lookup tkn.raw).isSome

/-- `_read_token` with its defaults `_mode = "rb"`, `_enc = "utf-8"`.  In the
file branch the source calls `tkn.open("rb", encoding="utf-8")`, and Python's
`open` raises `ValueError` whenever a binary mode is combined with an
`encoding` argument — so the file branch always fails.  In the other branch
`tkn.strip()` succeeds only when the token is a `str`; a `Path` has no
`strip` attribute. -/
def read_token (fs : TokenFS) (tkn : TokenVal) : Except PyError String :=
  if token_is_file fs tkn then
    .error (.valueError "binary mode does not take an encoding argument")
  else
    match tkn with
    | .pstr s => .ok (pyStrip s)
    | .ppath _ =>
        .error (.attributeError "PosixPath object has no attribute strip")

/-! ### Concrete fixtures from the method tables -/

/-- A host with no files and no signed packages (no claim exercises
uploads). -/
def noFS : FileSystem := ⟨fun _ => false, fun _ => false⟩

/-- `Apps._method_kwargs["create"]`. -/
def appsCreateConf : MethodConf :=
  { any_params := ["app_store_id", "bundle_id", "binary"],
    inc_params := [["app_store_id", "bundle_id", "binary"],
                   ["app_store_id", "bundle_id", "name"]],
    file_param := some "binary" }

/-- `Devices._method_kwargs["create"]` (required-parameter part). -/
def devicesCreateConf : MethodConf :=
  { req_params := ["name"] }

/-- The mocked paging service of the claim: the first fetch (cursor `0`)
returns `{data: [{id: 1}, {id: 2}], has_more: true}`, the next fetch returns
`{data: [{id: 3}], has_more: false}`. -/
def svc01 : Nat → Page := fun c =>
  if c = 0 then ⟨[⟨1⟩, ⟨2⟩], true⟩ else ⟨[⟨3⟩], false⟩

/-! ### Helper lemmas on the dict model -/

theorem lookup_filter_key (d : PyDict) (q : String → Bool) (k : String) :
    (d.filter (fun kv => q kv.1)).lookup k =
      if q k then d.lookup k else none := by
  induction d with
  | nil => simp
  | cons kv rest ih =>
      by_cases hq : q kv.1
      · by_cases hk : k = kv.1
        · subst hk; simp [List.filter, hq, List.lookup]
        · simp [List.filter, hq, List.lookup, ih,
            show (k == kv.1) = false by simpa using hk]
      · by_cases hk : k = kv.1
        · subst hk
          simp only [List.filter_cons]
          have hq2 : q kv.1 = false := by simpa using hq
          simp [hq2, ih, List.lookup]
        · simp only [List.filter_cons]
          have hq2 : q kv.1 = false := by simpa using hq
          simp [hq2, ih, List.lookup,
            show (k == kv.1) = false by simpa using hk]

theorem lookup_append_py (d₁ d₂ : PyDict) (k : String) :
    (d₁ ++ d₂).lookup k =
      (match d₁.lookup k with
        | some v => some v
        | none => d₂.lookup k) := by
  induction d₁ with
  | nil => simp
  | cons kv rest ih =>
      simp only [List.cons_append, List.lookup]
      cases hkk : (k == kv.1) <;> simp [ih]

theorem lookup_replace_self (d : PyDict) (k : String) (v : PyVal) :
    (d.map (fun kv => if kv.1 = k then (k, v) else kv)).lookup k =
      if (d.lookup k).isSome then some v else none := by
  induction d with
  | nil => simp
  | cons kv rest ih =>
      simp only [List.map_cons]
      by_cases hk : kv.1 = k
      · rw [if_pos hk]
        simp [List.lookup, show (k == kv.1) = true by simp [hk]]
      · rw [if_neg hk]
        simp only [List.lookup]
        by_cases hbeq : (k == kv.1) = true
        · exact absurd (by simpa using hbeq) (Ne.symm hk)
        · have hb : (k == kv.1) = false := by simpa using hbeq
          simp only [hb]
          simp [ih]

theorem lookup_replace_ne (d : PyDict) (k k' : String) (v : PyVal)
    (h : k' ≠ k) :
    (d.map (fun kv => if kv.1 = k then (k, v) else kv)).lookup k' =
      d.lookup k' := by
  induction d with
  | nil => simp
  | cons kv rest ih =>
      simp only [List.map_cons]
      by_cases hk : kv.1 = k
      · rw [if_pos hk]
        have h1 : (k' == kv.1) = false := by simp [hk, h]
        have h2 : (k' == k) = false := by simpa using h
        simp [List.lookup, h1, h2, ih]
      · rw [if_neg hk]
        simp only [List.lookup]
        cases hkk : (k' == kv.1) <;> simp [ih]

theorem lookup_dictSet_self (d : PyDict) (k : String) (v : PyVal) :
    (dictSet d k v).lookup k = some v := by
  unfold dictSet
  by_cases h : (d.lookup k).isSome
  · simp [h, lookup_replace_self]
  · rw [if_neg h, lookup_append_py]
    rw [Option.not_isSome_iff_eq_none] at h
    simp [h, List.lookup]

theorem lookup_dictSet_ne (d : PyDict) (k k' : String) (v : PyVal)
    (h : k' ≠ k) : (dictSet d k v).lookup k' = d.lookup k' := by
  unfold dictSet
  by_cases hs : (d.lookup k).isSome
  · simp [hs, lookup_replace_ne d k k' v h]
  · rw [if_neg hs, lookup_append_py]
    have hkk : (k' == k) = false := by simpa using h
    cases hl : d.lookup k' <;> simp [List.lookup, hkk]

theorem lookup_dictSetdefault_ne (d : PyDict) (k k' : String) (v : PyVal)
    (h : k' ≠ k) : (dictSetdefault d k v).lookup k' = d.lookup k' := by
  unfold dictSetdefault
  by_cases hs : (d.lookup k).isSome
  · simp [hs]
  · rw [if_neg hs, lookup_append_py]
    have hkk : (k' == k) = false := by simpa using h
    cases hl : d.lookup k' <;> simp [List.lookup, hkk]

theorem findSome?_eq_none_of_forall {α β : Type} (l : List α)
    (f : α → Option β) (h : ∀ a, f a = none) : l.findSome? f = none := by
  induction l with
  | nil => rfl
  | cons a rest ih => simp [List.findSome?, h a, ih]

theorem except_bind_error {ε α β : Type} (e : ε) (f : α → Except ε β) :
    (Except.error e >>= f) = Except.error e := rfl

theorem find?_const_false {α : Type} (l : List α) :
    l.find? (fun _ => false) = none := by
  induction l with
  | nil => rfl
  | cons a rest ih => simp [List.find?, ih]

/-- The incompatibility check of `validate_incompatible` can never fire: its
condition requires `kwarg in inc_params`, a Python membership test of a `str`
key in a tuple of lists, and `str == list` is always `False`. -/
theorem validate_incompatible_never_raises (kwargs : PyDict)
    (inc : List (List String)) (fn : String) :
    validate_incompatible kwargs inc fn = .ok () := by
  have h1 : ∀ kwarg, py_str_in_groups kwarg inc = false := by
    intro kwarg
    simp [py_str_in_groups, py_str_eq_list]
  have h3 : ∀ (kwarg : String) (combo : List String),
      combo.find? (fun bad_kwarg =>
        (dictGet kwargs bad_kwarg).isSome &&
        py_str_in_groups kwarg inc &&
        bad_kwarg != kwarg) = none := by
    intro kwarg combo
    have hfn : (fun bad_kwarg =>
        (dictGet kwargs bad_kwarg).isSome &&
        py_str_in_groups kwarg inc &&
        bad_kwarg != kwarg) = fun _ => false := by
      funext bad
      simp [h1 kwarg]
    rw [hfn]
    exact find?_const_false _
  have h2 : (kwargs.map Prod.fst).findSome? (fun kwarg =>
      (_generate_bad_combinations inc).findSome? (fun combo =>
        (combo.find? (fun bad_kwarg =>
          (dictGet kwargs bad_kwarg).isSome &&
          py_str_in_groups kwarg inc &&
          bad_kwarg != kwarg)).map (fun bad_kwarg => (bad_kwarg, kwarg)))) =
      none := by
    apply findSome?_eq_none_of_forall
    intro kwarg
    apply findSome?_eq_none_of_forall
    intro combo
    rw [h3 kwarg combo]
    rfl
  simp only [validate_incompatible, h2]

/-! ### Claims -/

/-- C2: the spec claims a 6-digit pin passes validation and the lock/wipe
operation proceeds, while bad pins raise the invalid-pin-format error.  The
code contains a bug: `validate_pin`'s inner wrapper validates (only when the
pin arrives inside a `params` dict) and then returns `None` without ever
calling the decorated method, so even a valid pin never reaches the transport
(0 requests issued); and a pin supplied as the documented top-level keyword is
never validated at all. -/
theorem C2_pin_validation_code_bug :
    lock_call [("params", .vdict [("pin", .vstr "123456")])] = (.ok (), 0) ∧
    (lock_call [("params", .vdict [("pin", .vstr "12345")])]).1 =
      .error (.valueError ("lock() option for " ++ squote ++ "pin" ++ squote ++
        " does not meet length requirement of 6")) ∧
    (lock_call [("params", .vdict [("pin", .vstr "12a456")])]).1 =
      .error (.valueError ("lock() option for " ++ squote ++ "pin" ++ squote ++
        " contains non-numeric characters")) ∧
    lock_call [("pin", .vstr "12345")] = (.ok (), 0) :=
  ⟨rfl, rfl, rfl, rfl⟩

/-- C3: the spec claims supplying two distinct parameters of one
incompatibility group raises the incompatible-parameters error.  The code
never raises it: the guard `kwarg in inc_params` compares a string key against
the tuple of group lists, which is always false in Python, so for the apps
create operation `app_store_id` together with `bundle_id` passes validation
and the request is issued; in fact `validate_incompatible` returns
successfully on all inputs. -/
theorem C3_incompatible_params_code_bug :
    validate_incompatible
      [("app_store_id", .vstr "1090161858"),
       ("bundle_id", .vstr "org.example.foo")]
      appsCreateConf.inc_params "create" = .ok () ∧
    (operation_call noFS appsCreateConf "create"
      [("app_store_id", .vstr "1090161858"),
       ("bundle_id", .vstr "org.example.foo")]).2 = 1 ∧
    (∀ (kwargs : PyDict) (inc : List (List String)) (fn : String),
      validate_incompatible kwargs inc fn = .ok ()) :=
  ⟨validate_incompatible_never_raises _ _ _, rfl,
   validate_incompatible_never_raises⟩

/-- C4: the spec claims all runs of repeated separators outside the scheme
are collapsed.  The concrete example does hold, but the collapsing regex is
the literal text `/(2,)` (the f-string `rf"{sep}{2,}"` consumes `{2,}` as a
replacement field producing the tuple `(2,)`), so a doubled slash inside a
segment survives while the unrelated text `/2,` is rewritten to `/`. -/
theorem C4_urljoin_code_bug :
    urljoin ["v1", "devices", "42", "profiles"] "https://a.simplemdm.com/api"
      = "https://a.simplemdm.com/api/v1/devices/42/profiles" ∧
    urljoin ["a//b"] "https://x" = "https://x/a//b" ∧
    urljoin ["a", "2,b"] "https://x" = "https://x/a/b" :=
  ⟨rfl, rfl, rfl⟩

/-- C8: the spec claims an existing-file token is read and trimmed and that
construction always succeeds.  The code's file branch calls
`tkn.open("rb", encoding="utf-8")`, which Python rejects with `ValueError`
(binary mode with an encoding), so every existing-file token fails; a plain
string token is trimmed as claimed, and a non-file `Path` token fails with
`AttributeError` since `Path` has no `strip`. -/
theorem C8_token_read_code_bug :
    read_token [("/var/root/simplemdm_token", "sometoken\n")]
        (.ppath "/var/root/simplemdm_token") =
      .error (.valueError "binary mode does not take an encoding argument") ∧
    read_token [] (.pstr "  tok  ") = .ok "tok" ∧
    read_token [] (.ppath "/var/root/simplemdm_token") =
      .error (.attributeError "PosixPath object has no attribute strip") :=
  ⟨rfl, rfl, rfl⟩

/-- C9: the effective ignore and retry status lists are the caller's
overrides concatenated with the class defaults, so each default status and
each override status is always a member — overrides extend, never remove. -/
theorem C9_defaults_never_removed (ovi ovr : List Nat) (s : Nat) :
    (s ∈ HTTP_IGNORE_STATUS_ERR → s ∈ (consume_func_kwargs ovi ovr).1) ∧
    (s ∈ ovi → s ∈ (consume_func_kwargs ovi ovr).1) ∧
    (s ∈ HTTP_RETRY_STATUS_LIST → s ∈ (consume_func_kwargs ovi ovr).2) ∧
    (s ∈ ovr → s ∈ (consume_func_kwargs ovi ovr).2) := by
  refine ⟨?_, ?_, ?_, ?_⟩ <;> intro h <;>
    simp [consume_func_kwargs, List.mem_append] <;> tauto

/-- Witness for C9 at concrete overrides. -/
theorem C9_defaults_witness :
    500 ∈ (consume_func_kwargs [418] [302]).1 ∧
    418 ∈ (consume_func_kwargs [418] [302]).1 ∧
    503 ∈ (consume_func_kwargs [418] [302]).2 ∧
    302 ∈ (consume_func_kwargs [418] [302]).2 :=
  ⟨(C9_defaults_never_removed [418] [302] 500).1 (by decide),
   (C9_defaults_never_removed [418] [302] 418).2.1 (by decide),
   (C9_defaults_never_removed [418] [302] 503).2.2.1 (by decide),
   (C9_defaults_never_removed [418] [302] 302).2.2.2 (by decide)⟩

/-- C1: over the mocked two-page service, the paginator yields exactly the
records with ids 1, 2, 3 in order while performing exactly two fetches (the
cursor list `[0, 2]`), the second fetch carrying `starting_after = 2`; and in
general, any fetch whose page has an empty `data` list or `has_more = false`
is the last fetch of the run. -/
theorem C1_paginator_yields_and_stops :
    (∀ k : Nat, paginate_loop svc01 (k + 2) 0 = ([⟨1⟩, ⟨2⟩, ⟨3⟩], [0, 2])) ∧
    (∀ (svc : Nat → Page) (fuel cursor : Nat),
      ((svc cursor).pageData = [] ∨ (svc cursor).has_more = false) →
      (paginate_loop svc (fuel + 1) cursor).2 = [cursor]) := by
  constructor
  · intro k
    rfl
  · intro svc fuel cursor h
    rcases h with h | h
    · simp [paginate_loop, h]
    · cases hgl : (svc cursor).pageData.getLast? with
      | none => simp [paginate_loop, hgl]
      | some lastObj => simp [paginate_loop, hgl, h]

/-- Witness for C1: the mocked run with just enough fuel, and a one-page
service whose single fetch ends the run. -/
theorem C1_paginator_witness :
    paginate_loop svc01 2 0 = ([⟨1⟩, ⟨2⟩, ⟨3⟩], [0, 2]) ∧
    (paginate_loop (fun _ => ⟨[⟨7⟩], false⟩) 1 5).2 = [5] :=
  ⟨C1_paginator_yields_and_stops.1 0,
   C1_paginator_yields_and_stops.2 (fun _ => ⟨[⟨7⟩], false⟩) 0 5
     (Or.inr rfl)⟩

/-- C5: whenever a response's status is in the effective ignore list (the
caller's overrides plus the defaults 200/201/202/500), the executor skips
both the service-error inspection and the HTTP-status raising and returns the
raw response unchanged. -/
theorem C5_ignored_status_returns_raw (ovi ovr : List Nat) (r : MockResponse)
    (h : r.status_code ∈ (consume_func_kwargs ovi ovr).1) :
    request_execute (consume_func_kwargs ovi ovr).1 r = .ok r := by
  have hc : (consume_func_kwargs ovi ovr).1.contains r.status_code = true := by
    simpa using h
  unfold request_execute
  rw [hc]
  simp

/-- Witness for C5: a status-500 response with a well-formed non-error JSON
body is returned unchanged under the default ignore list. -/
theorem C5_ignored_status_witness :
    (500 ∈ (consume_func_kwargs [] []).1) ∧
    request_execute (consume_func_kwargs [] []).1 ⟨500, .decoded none⟩ =
      .ok ⟨500, .decoded none⟩ :=
  ⟨by decide,
   C5_ignored_status_returns_raw [] [] ⟨500, .decoded none⟩ (by decide)⟩

/-- C6: when the status is not ignored and the JSON body carries an `errors`
array, the executor raises the distinct service-API error whose message
concatenates the error titles and the HTTP status code — not the generic
HTTP-status error. -/
theorem C6_service_error_raised (ignore : List Nat) (r : MockResponse)
    (errs : List (Option String))
    (hmem : r.status_code ∉ ignore) (hbody : r.body = .decoded (some errs)) :
    request_execute ignore r =
      .error (.apiException (api_error_msg errs r.status_code)) := by
  have hc : ignore.contains r.status_code = false := by
    simpa using hmem
  unfold request_execute
  rw [hc]
  simp [api_error_check, hbody, except_bind_error]

/-- Witness for C6: a 404 response whose body reports one titled error. -/
theorem C6_service_error_witness :
    (404 ∉ HTTP_IGNORE_STATUS_ERR) ∧
    request_execute HTTP_IGNORE_STATUS_ERR ⟨404, .decoded (some [some "Bad"])⟩
      = .error (.apiException (api_error_msg [some "Bad"] 404)) :=
  ⟨by decide,
   C6_service_error_raised HTTP_IGNORE_STATUS_ERR
     ⟨404, .decoded (some [some "Bad"])⟩ [some "Bad"] (by decide) rfl⟩

theorem dictGet_timeout_stage_ne (rqst func : PyDict) (k : String)
    (h : k ≠ "timeout") :
    dictGet (timeout_stage rqst func) k = dictGet rqst k := by
  simp only [timeout_stage]
  split
  · exact lookup_dictSetdefault_ne rqst "timeout" k _ h
  · rfl

theorem dictGet_consume_kwargs (kwargs : PyDict) (k : String)
    (h1 : _requests_kwargs.contains k = true) (h2 : k ≠ "params") :
    dictGet (consume_kwargs kwargs).1 k = dictGet kwargs k := by
  unfold consume_kwargs
  simp only []
  rw [dictGet, lookup_dictSet_ne _ _ _ _ h2]
  rw [show (List.filter (fun kv => _requests_kwargs.contains kv.1) kwargs).lookup k =
        if _requests_kwargs.contains k then kwargs.lookup k else none
      from lookup_filter_key kwargs (fun x => _requests_kwargs.contains x) k]
  rw [h1]
  rfl

/-- C7: a resource operation with a declared required-parameter set, invoked
without one of those parameters, fails with the missing-required-parameter
`TypeError` and issues no transport request (the request counter stays 0). -/
theorem C7_missing_required_blocks_network
    (fs : FileSystem) (conf : MethodConf) (fn_name : String) (kwargs : PyDict)
    (h : ∃ r ∈ conf.req_params, dictGet kwargs r = none) :
    (operation_call fs conf fn_name kwargs).2 = 0 ∧
    ∃ p ∈ conf.req_params, dictGet kwargs p = none ∧
      (operation_call fs conf fn_name kwargs).1 =
        .error (.typeError (fn_name ++
          "() missing required keyword-only parameter: " ++
          squote ++ p ++ squote)) := by
  obtain ⟨r, hr, hrn⟩ := h
  have hfind : (conf.req_params.find?
      (fun x => (dictGet kwargs x).isNone)).isSome := by
    rw [List.find?_isSome]
    exact ⟨r, hr, by simp [hrn]⟩
  obtain ⟨p, hp⟩ := Option.isSome_iff_exists.mp hfind
  have hpmem : p ∈ conf.req_params := List.mem_of_find?_eq_some hp
  have hpnone : dictGet kwargs p = none := by
    have := List.find?_some hp
    simpa using this
  have hreq : validate_required kwargs conf.req_params fn_name =
      .error (.typeError (fn_name ++
        "() missing required keyword-only parameter: " ++
        squote ++ p ++ squote)) := by
    unfold validate_required
    rw [hp]
  have hemp : conf.req_params.isEmpty = false := by
    cases hc : conf.req_params with
    | nil => rw [hc] at hr; exact absurd hr (List.not_mem_nil r)
    | cons a l => rfl
  have hrun : method_params_run fs conf fn_name kwargs =
      .error (.typeError (fn_name ++
        "() missing required keyword-only parameter: " ++
        squote ++ p ++ squote)) := by
    unfold method_params_run
    simp [hemp, hreq, except_bind_error]
  refine ⟨by simp [operation_call, hrun], p, hpmem, hpnone, ?_⟩
  simp [operation_call, hrun]

/-- Witness for C7: `Devices.create` without its required `name`. -/
theorem C7_missing_required_witness :
    (operation_call noFS devicesCreateConf "create" []).2 = 0 :=
  (C7_missing_required_blocks_network noFS devicesCreateConf "create" []
    ⟨"name", by simp [devicesCreateConf], rfl⟩).1

/-- C10: a truthy `json` body parameter makes the wrapper replace the whole
`headers` mapping with exactly the JSON content type, discarding any
caller-supplied headers; with `json` absent or falsy the caller's `headers`
entry passes through unchanged. -/
theorem C10_json_header_override (kwargs : PyDict) :
    (pyTruthyOpt (dictGet kwargs "json") = true →
      dictGet (prepare_request_kwargs kwargs) "headers" =
        some (.vdict [("Content-Type", .vstr "application/json")])) ∧
    (pyTruthyOpt (dictGet kwargs "json") = false →
      dictGet (prepare_request_kwargs kwargs) "headers" =
        dictGet kwargs "headers") := by
  have hj : dictGet (timeout_stage (consume_kwargs kwargs).1
      (consume_kwargs kwargs).2) "json" = dictGet kwargs "json" := by
    rw [dictGet_timeout_stage_ne _ _ _ (by decide)]
    exact dictGet_consume_kwargs kwargs "json" (by decide) (by decide)
  have hh : dictGet (timeout_stage (consume_kwargs kwargs).1
      (consume_kwargs kwargs).2) "headers" = dictGet kwargs "headers" := by
    rw [dictGet_timeout_stage_ne _ _ _ (by decide)]
    exact dictGet_consume_kwargs kwargs "headers" (by decide) (by decide)
  constructor
  · intro htr
    unfold prepare_request_kwargs json_header_stage
    rw [hj, htr]
    simp only [if_pos rfl]
    exact lookup_dictSet_self _ _ _
  · intro hfl
    unfold prepare_request_kwargs json_header_stage
    rw [hj, hfl]
    simpa using hh

/-- Witness for C10: caller headers are discarded when a JSON body is
present, and preserved when it is not. -/
theorem C10_json_header_witness :
    dictGet (prepare_request_kwargs
        [("headers", .vdict [("X-Custom", .vstr "y")]),
         ("json", .vdict [("a", .vstr "b")])]) "headers" =
      some (.vdict [("Content-Type", .vstr "application/json")]) ∧
    dictGet (prepare_request_kwargs
        [("headers", .vdict [("X-Custom", .vstr "y")])]) "headers" =
      some (.vdict [("X-Custom", .vstr "y")]) :=
  ⟨(C10_json_header_override _).1 rfl, (C10_json_header_override _).2 rfl⟩

end SimpleMDM
